import Mathlib

/-!
Verification of the credential and cache-registry coordination engine of the
siperak-backend repository, as a shallow embedding in Lean 4.

The embedding models:
* the memcached key-value layer (`src/helpers/MemcachedHelpers.ts`):
  a cache state is an association list from string keys to entries carrying a
  value and the TTL that was last written for it;
* the registry helpers `getCachedQueryKeys`, `registerCachedQueryKey` and
  `invalidateCachedQueries` from the same file;
* the JWT codec in both of its variants present in the repository
  (`src/unnamed/part_010` with two secrets, and
  `src/src/helpers/JwtHelpers.ts` with a single base secret);
* the `login` handler of `src/src/handlers/AuthHandlers.ts`;
* the request guards `checkRefreshToken` (`src/src/middlewares/TokenMiddlewares.ts`),
  `checkAnonymousCsrfToken` (CSRF middleware section of
  `src/src/handlers/AuthHandlers.ts`), `checkAdmin`
  (`src/src/middlewares/AuthorityMiddlewares.ts`) and the read-through cache
  path of `getProducts` (`src/src/handlers/ProductHandlers.ts`).

JavaScript`s `JSON.stringify`/`JSON.parse` round trip on string arrays is
modelled by storing structured values (`CacheVal`) in the cache: a stored
JSON-encoded array is represented by the `CacheVal.arr` constructor and a
plain string value by `CacheVal.str`.  External cryptographic primitives
(`crypto.createHash("sha256")`, `crypto.scrypt`, `crypto.randomBytes`) are
modelled as function parameters, since only their input-output behaviour at
the call sites matters for the properties proved here.
-/

namespace Siperak

/-- Values storable in the memcached model: a plain string, or a
JSON-encoded array of strings (the representation used by the registry
helpers for `"<field>:queries"` group keys). -/
inductive CacheVal where
  | str (s : String)
  | arr (l : List String)
deriving DecidableEq, Repr

/-- One cache entry: the stored value together with the TTL (in seconds)
passed to the most recent `set`/`touch` for its key. -/
structure CacheEntry where
  value : CacheVal
  ttl : Nat
deriving DecidableEq, Repr

/-- The cache state: an association list from keys to entries.  The head of
the list is the most recent binding for a key. -/
abbrev Cache := List (String × CacheEntry)

/-- Lookup in the cache: models `memcached.get(key)` resolving with the
stored value (`some`) or rejecting with a `"cache miss"` error (`none`).
Internal cache errors are modelled separately at the call sites that
distinguish them. -/
def cacheGet (c : Cache) (k : String) : Option CacheEntry :=
  (c.find? (fun p => p.1 == k)).map (fun p => p.2)

/-- Models `memcached.set(key, value, lifetime)`: the new binding shadows and
removes any previous binding for the key. -/
def cacheSet (c : Cache) (k : String) (v : CacheVal) (ttl : Nat) : Cache :=
  (k, ⟨v, ttl⟩) :: c.filter (fun p => p.1 != k)

/-- Models `memcached.del(key)`. -/
def cacheDel (c : Cache) (k : String) : Cache :=
  c.filter (fun p => p.1 != k)

/-- Models `memcached.touch(key, lifetime)`: updates the TTL of an existing
entry, leaving the value unchanged. -/
def cacheTouch (c : Cache) (k : String) (ttl : Nat) : Cache :=
  c.map (fun p => if p.1 == k then (p.1, ⟨p.2.value, ttl⟩) else p)

namespace cacheDuration

/-- `cacheDuration.super` from `src/src/configs/MemcachedConfigs.ts`: 7 days. -/
def «super» : Nat := 604800

/-- `cacheDuration.long`: 1 hour. -/
def long : Nat := 3600

/-- `cacheDuration.medium`: 30 minutes. -/
def medium : Nat := 1800

/-- `cacheDuration.short`: 5 minutes. -/
def short : Nat := 300

end cacheDuration

/-- Extracts the string-array reading of a cache value, as `JSON.parse`
followed by the `z.array(z.string())` shape check would: `none` when the
stored value is not a JSON array of strings. -/
def asArr : CacheVal → Option (List String)
  | .arr l => some l
  | .str _ => none

/-- Embedding of `getCachedQueryKeys(field)` from
`src/src/helpers/MemcachedHelpers.ts` (lines 90-102): read the group key
`` `${field}:queries` ``, substituting the JSON text `"[]"` when the read
fails (the `.catch` default), and parse it as an array. -/
def getCachedQueryKeys (c : Cache) (field : String) : List String :=
  match cacheGet c (field ++ ":queries") with
  | none => []
  | some e => (asArr e.value).getD []

/-- Embedding of `registerCachedQueryKey(field, cacheKey)` from
`src/src/helpers/MemcachedHelpers.ts` (lines 104-122): read the current list
(miss defaults to the empty list, exactly the inline copy of the
`getCachedQueryKeys` logic), unconditionally `push` the new key, and write
the list back under the group key with `cacheDuration.super`.  The source
performs no duplicate check before the push. -/
def registerCachedQueryKey (c : Cache) (field cacheKey : String) : Cache :=
  let arr := getCachedQueryKeys c field
  cacheSet c (field ++ ":queries") (.arr (arr ++ [cacheKey])) cacheDuration.super

/-- Embedding of `invalidateCachedQueries(field)` from
`src/src/helpers/MemcachedHelpers.ts` (lines 144-161): read the group key
(returning unchanged on a read failure), require a JSON array of strings of
length at least 1 (`z.array(z.string()).min(1).safeParse`, returning
unchanged on failure), delete every member key, then delete the group key
itself. -/
def invalidateCachedQueries (c : Cache) (field : String) : Cache :=
  match cacheGet c (field ++ ":queries") with
  | none => c
  | some e =>
    match asArr e.value with
    | none => c
    | some arr =>
      if arr.length < 1 then c
      else
        let c2 := arr.foldl (fun acc k => cacheDel acc k) c
        cacheDel c2 (field ++ ":queries")

/-- Wellformedness of a registry group in a cache state: if the group key is
present, its value is a JSON array of strings.  All states reachable through
the registry helpers satisfy this; on other states the source code would
throw from `JSON.parse`, which the model does not represent. -/
def groupWF (c : Cache) (field : String) : Bool :=
  match cacheGet c (field ++ ":queries") with
  | none => true
  | some e => (asArr e.value).isSome

theorem cacheGet_cacheSet_self (c : Cache) (k : String) (v : CacheVal) (ttl : Nat) :
    cacheGet (cacheSet c k v ttl) k = some ⟨v, ttl⟩ := by
  simp [cacheGet, cacheSet, List.find?]

theorem find?_filter_ne (k k' : String) (h : k' ≠ k) (l : Cache) :
    List.find? (fun p => p.1 == k) (l.filter (fun p => p.1 != k'))
      = List.find? (fun p => p.1 == k) l := by
  induction l with
  | nil => rfl
  | cons a l ih =>
    by_cases ha : a.1 = k
    · have hne : (a.1 != k') = true := by simp [ha, Ne.symm h]
      have hk : (a.1 == k) = true := by simp [ha]
      rw [List.filter_cons, hne]
      simp only [List.find?, hk]
    · have hk : (a.1 == k) = false := by simp [ha]
      by_cases hb : a.1 = k'
      · have hne : (a.1 != k') = false := by simp [hb]
        rw [List.filter_cons, hne]
        simp only [Bool.false_eq_true, if_false]
        rw [ih]
        simp only [List.find?, hk]
      · have hne : (a.1 != k') = true := by simp [hb]
        rw [List.filter_cons, hne]
        simp only [if_true]
        simp only [List.find?, hk]
        exact ih

theorem cacheGet_cacheSet_ne (c : Cache) (k k' : String) (v : CacheVal) (ttl : Nat)
    (h : k' ≠ k) : cacheGet (cacheSet c k' v ttl) k = cacheGet c k := by
  have hhead : ((k', (⟨v, ttl⟩ : CacheEntry)).1 == k) = false := by simp [h]
  simp only [cacheGet, cacheSet, List.find?, hhead]
  rw [find?_filter_ne k k' h c]

/-- C2 counterexample: registering the member `"a"` into group `"g"` twice
leaves the member list `["a", "a"]`, not `["a"]` — `registerCachedQueryKey`
appends unconditionally, so the operation is not idempotent and duplicates
survive. -/
theorem c2_register_not_idempotent_cex :
    getCachedQueryKeys
      (registerCachedQueryKey (registerCachedQueryKey [] "g" "a") "g" "a") "g"
      = ["a", "a"] ∧
    ¬ getCachedQueryKeys
      (registerCachedQueryKey (registerCachedQueryKey [] "g" "a") "g" "a") "g"
      = ["a"] := by
  decide

/-- C2 amended: `registerCachedQueryKey` appends the member unconditionally.
On any cache whose group entry is well formed, after the operation settles
the group list equals the previous list with the member appended — so the
member is present, but no duplicate elimination happens and registering the
same member twice duplicates it. -/
theorem c2_register_appends (c : Cache) (field cacheKey : String)
    (_hwf : groupWF c field = true) :
    getCachedQueryKeys (registerCachedQueryKey c field cacheKey) field
      = getCachedQueryKeys c field ++ [cacheKey] ∧
    cacheKey ∈ getCachedQueryKeys (registerCachedQueryKey c field cacheKey) field := by
  have h : getCachedQueryKeys (registerCachedQueryKey c field cacheKey) field
      = getCachedQueryKeys c field ++ [cacheKey] := by
    unfold registerCachedQueryKey
    unfold getCachedQueryKeys
    rw [cacheGet_cacheSet_self]
    rfl
  exact ⟨h, by rw [h]; simp⟩

/-- Witness for `c2_register_appends` at a concrete input: the empty cache,
group `"g"`, member `"a"`. -/
theorem c2_register_appends_witness :
    groupWF ([] : Cache) "g" = true ∧
    (getCachedQueryKeys (registerCachedQueryKey [] "g" "a") "g"
        = getCachedQueryKeys ([] : Cache) "g" ++ ["a"] ∧
      "a" ∈ getCachedQueryKeys (registerCachedQueryKey [] "g" "a") "g") :=
  ⟨by decide, c2_register_appends [] "g" "a" (by decide)⟩

/-- C6: after the member entries `"a"` and `"b"` are cached and registered
into the group `"g"`, `invalidateCachedQueries "g"` deletes both member
entries and then the group key, so both lookups miss and the group list
reads empty. -/
theorem c6_invalidate_group :
    cacheGet
      (invalidateCachedQueries
        (registerCachedQueryKey
          (cacheSet
            (registerCachedQueryKey
              (cacheSet [] "a" (.str "va") cacheDuration.super) "g" "a")
            "b" (.str "vb") cacheDuration.super)
          "g" "b")
        "g") "a" = none ∧
    cacheGet
      (invalidateCachedQueries
        (registerCachedQueryKey
          (cacheSet
            (registerCachedQueryKey
              (cacheSet [] "a" (.str "va") cacheDuration.super) "g" "a")
            "b" (.str "vb") cacheDuration.super)
          "g" "b")
        "g") "b" = none ∧
    getCachedQueryKeys
      (invalidateCachedQueries
        (registerCachedQueryKey
          (cacheSet
            (registerCachedQueryKey
              (cacheSet [] "a" (.str "va") cacheDuration.super) "g" "a")
            "b" (.str "vb") cacheDuration.super)
          "g" "b")
        "g") "g" = [] := by
  decide

/-- The two token kinds of the credential codec (`"ACCESS_TOKEN"` and
`"REFRESH_TOKEN"` string literals in the source). -/
inductive TokenType where
  | ACCESS_TOKEN
  | REFRESH_TOKEN
deriving DecidableEq, Repr

/-- HMAC algorithms used by the two JWT configuration variants. -/
inductive Alg where
  | HS256
  | HS512
deriving DecidableEq, Repr

/-- Signing configuration (`jwt.SignOptions`): algorithm and `expiresIn`
converted to seconds. -/
structure SignConfig where
  alg : Alg
  expiresIn : Nat
deriving DecidableEq, Repr

/-- The user part of a JWT payload: `JWTPayload = JwtPayload & UserSafeData`,
with the `UserSafeData` fields `id`, `email`, `name`, `role`
(`src/src/schemas/UserSchemas.ts`). -/
structure UserPayload where
  id : String
  email : String
  name : String
  role : String
deriving DecidableEq, Repr

/-- A payload as produced by the `part_010` `sign`: the user fields spread
together with the injected `randomHash` nonce field. -/
structure SignedPayload where
  user : UserPayload
  randomHash : String
deriving DecidableEq, Repr

/-- Symbolic model of a signed JWT, generic in the payload carried.  The
HMAC signature is modelled by recording the algorithm and the secret the
token was signed with; verification against `(alg, secret)` succeeds exactly
when they match, the standard symbolic model of an unforgeable MAC.  `iat`
and `exp` are the issued-at and expiry instants in seconds. -/
structure Token (P : Type) where
  payload : P
  alg : Alg
  secret : String
  iat : Nat
  exp : Nat
deriving DecidableEq, Repr

/-- Typed verification failures of `jwt.verify`: `JsonWebTokenError` for a
structurally or cryptographically invalid token, `TokenExpiredError` for a
valid but expired one. -/
inductive JwtError where
  | invalidSignature
  | expired
deriving DecidableEq, Repr

/-- Model of `jwt.verify(token, secret, options, cb)` at clock instant
`now`: the signature (secret, and algorithm when the options carry an
`algorithms` allow-list) is checked first, then the `exp` claim; a token is
valid while `now < exp`.  `allowed = none` models options without an
`algorithms` field, in which case `jsonwebtoken` accepts any HMAC algorithm
for a string secret. -/
def jwtVerify {P : Type} (tok : Token P) (secret : String) (allowed : Option (List Alg))
    (now : Nat) : Except JwtError P :=
  let algOk := match allowed with
    | none => true
    | some l => l.contains tok.alg
  if algOk = false ∨ tok.secret ≠ secret then .error .invalidSignature
  else if tok.exp ≤ now then .error .expired
  else .ok tok.payload

namespace JwtTwoSecret

/-!
Embedding of the two-secret codec variant: `sign`/`verify` from
`src/unnamed/part_010`, with the configuration from the `JwtConfigs`
section of `src/unnamed/part_000` that defines `ACCESS_TOKEN_SECRET` and
`REFRESH_TOKEN_SECRET` (HS256 for access, HS512 for refresh).  The secrets
are the source defaults used when the corresponding environment variables
are absent.
-/

/-- `accessTokenConfig`: HS256, `expiresIn: "30m"`. -/
def accessTokenConfig : SignConfig := ⟨.HS256, 1800⟩

/-- `refreshTokenConfig`: HS512, `expiresIn: "7d"`. -/
def refreshTokenConfig : SignConfig := ⟨.HS512, 604800⟩

/-- `ACCESS_TOKEN_SECRET` default value. -/
def ACCESS_TOKEN_SECRET : String := "super secret access token"

/-- `REFRESH_TOKEN_SECRET` default value. -/
def REFRESH_TOKEN_SECRET : String := "super secret refresh token"

/-- Configuration selected for a token type (`tokenType === "ACCESS_TOKEN" ?
accessTokenConfig : refreshTokenConfig`). -/
def configOf : TokenType → SignConfig
  | .ACCESS_TOKEN => accessTokenConfig
  | .REFRESH_TOKEN => refreshTokenConfig

/-- Secret selected for a token type. -/
def secretOf : TokenType → String
  | .ACCESS_TOKEN => ACCESS_TOKEN_SECRET
  | .REFRESH_TOKEN => REFRESH_TOKEN_SECRET

/-- Embedding of `sign(tokenType, initialPayload)` from
`src/unnamed/part_010` (lines 11-42): select config and secret by token
type, compute `randomHash` as the SHA-256 hex digest of 128 random bytes,
spread it into the payload, and sign.  The external primitives
`randomBytes(128).toString()` and `createHash("sha256")...digest("hex")` are
modelled by the parameters `randomData` and `hashFn`; `now` is the signing
instant fixing `iat` and `exp`. -/
def sign (tokenType : TokenType) (initialPayload : UserPayload)
    (hashFn : String → String) (randomData : String) (now : Nat) : Token SignedPayload :=
  let config := configOf tokenType
  let secret := secretOf tokenType
  let randomHash := hashFn randomData
  { payload := ⟨initialPayload, randomHash⟩
    alg := config.alg
    secret := secret
    iat := now
    exp := now + config.expiresIn }

/-- Embedding of `verify(tokenType, token)` from `src/unnamed/part_010`
(lines 44-69): select secret by token type and run `jwt.verify`.  The
options object passed is the `SignOptions` value, which carries no
`algorithms` allow-list, so no algorithm restriction applies
(`allowed = none`). -/
def verify (tokenType : TokenType) (tok : Token SignedPayload) (now : Nat) :
    Except JwtError SignedPayload :=
  jwtVerify tok (secretOf tokenType) none now

end JwtTwoSecret

namespace JwtOneSecret

/-!
Embedding of the single-secret codec variant: `sign`/`verify` from
`src/src/helpers/JwtHelpers.ts`, with the `JwtConfigs` section of
`src/unnamed/part_000` (lines 104-127) that defines one `JWT_SECRET`, HS256
for both token kinds, and a shared `verifyConfig` allowing only HS256.
This variant injects no random nonce into the payload.
-/

/-- `JWT_SECRET` default value. -/
def JWT_SECRET : String := "super secret jwt"

/-- `accessTokenConfig` of this variant: HS256, 30 minutes. -/
def accessTokenConfig : SignConfig := ⟨.HS256, 1800⟩

/-- `refreshTokenConfig` of this variant: HS256, 7 days. -/
def refreshTokenConfig : SignConfig := ⟨.HS256, 604800⟩

/-- `verifyConfig`: `algorithms: ["HS256"]`. -/
def verifyConfig : List Alg := [.HS256]

/-- Embedding of `sign` from `src/src/helpers/JwtHelpers.ts` (lines 21-54):
an access token is signed with the secret `` `${JWT_SECRET}${csrfToken}` ``
under `accessTokenConfig`, a refresh token with `` `${JWT_SECRET}` `` under
`refreshTokenConfig`.  The `csrfToken` argument exists only on the access
branch in the source's signature; the refresh branch ignores it here. -/
def sign (tokenType : TokenType) (initialPayload : UserPayload) (csrfToken : String)
    (now : Nat) : Token UserPayload :=
  match tokenType with
  | .ACCESS_TOKEN =>
    { payload := initialPayload
      alg := accessTokenConfig.alg
      secret := JWT_SECRET ++ csrfToken
      iat := now
      exp := now + accessTokenConfig.expiresIn }
  | .REFRESH_TOKEN =>
    { payload := initialPayload
      alg := refreshTokenConfig.alg
      secret := JWT_SECRET
      iat := now
      exp := now + refreshTokenConfig.expiresIn }

/-- Embedding of `verify` from `src/src/helpers/JwtHelpers.ts` (lines
67-84): the token type itself is ignored; the secret is
`` `${JWT_SECRET}${csrfToken ? csrfToken : ""}` `` where `csrfToken` is
absent (`none`) on refresh-token calls, and verification runs under the
shared `verifyConfig`. -/
def verify (_tokenType : TokenType) (tok : Token UserPayload) (csrfToken : Option String)
    (now : Nat) : Except JwtError UserPayload :=
  let secret := JWT_SECRET ++ (csrfToken.getD "")
  jwtVerify tok secret (some verifyConfig) now

end JwtOneSecret

/-- C4: round trip of the `part_010` credential codec.  For both token kinds
and every payload, verifying a freshly signed token at any instant before
its expiry succeeds and returns the input payload extended with the injected
`randomHash` nonce; the nonce is non-empty (the hypothesis `hnonce` records
the contract of the SHA-256 hex digest, a 64-character string). -/
theorem c4_verify_sign_roundtrip (kind : TokenType) (p : UserPayload)
    (hashFn : String → String) (randomData : String) (t0 t1 : Nat)
    (hnonce : hashFn randomData ≠ "")
    (hfresh : t1 < t0 + (JwtTwoSecret.configOf kind).expiresIn) :
    JwtTwoSecret.verify kind (JwtTwoSecret.sign kind p hashFn randomData t0) t1
      = .ok ⟨p, hashFn randomData⟩ ∧
    (SignedPayload.mk p (hashFn randomData)).randomHash ≠ "" := by
  refine ⟨?_, hnonce⟩
  cases kind <;>
    simp_all [JwtTwoSecret.verify, JwtTwoSecret.sign, jwtVerify, JwtTwoSecret.configOf,
      JwtTwoSecret.secretOf, JwtTwoSecret.accessTokenConfig, JwtTwoSecret.refreshTokenConfig]

/-- Witness for `c4_verify_sign_roundtrip` at a concrete input: the access
kind, a concrete payload, a hash function returning `"n"`, verification one
second after signing. -/
theorem c4_verify_sign_roundtrip_witness :
    (fun _ : String => "n") "r" ≠ "" ∧
    (1 : Nat) < 0 + (JwtTwoSecret.configOf .ACCESS_TOKEN).expiresIn ∧
    JwtTwoSecret.verify .ACCESS_TOKEN
        (JwtTwoSecret.sign .ACCESS_TOKEN ⟨"u1", "e", "nm", "USER"⟩ (fun _ => "n") "r" 0) 1
      = .ok ⟨⟨"u1", "e", "nm", "USER"⟩, "n"⟩ :=
  ⟨by decide, by decide,
    (c4_verify_sign_roundtrip .ACCESS_TOKEN ⟨"u1", "e", "nm", "USER"⟩ (fun _ => "n") "r" 0 1
      (by decide) (by decide)).1⟩

/-- C5 counterexample: in the single-secret codec
(`src/src/helpers/JwtHelpers.ts` with the `JwtConfigs` of
`src/unnamed/part_000` lines 104-127), both kinds use HS256 and secrets
derived from the one `JWT_SECRET`, so an access token signed with an empty
csrf token verifies successfully as a refresh credential — refuting the
claim that such a cross-verification never succeeds. -/
theorem c5_cross_verify_cex :
    JwtOneSecret.accessTokenConfig.alg = JwtOneSecret.refreshTokenConfig.alg ∧
    JwtOneSecret.verify .REFRESH_TOKEN
        (JwtOneSecret.sign .ACCESS_TOKEN ⟨"u1", "e", "nm", "USER"⟩ "" 0) none 100
      = .ok ⟨"u1", "e", "nm", "USER"⟩ :=
  ⟨rfl, rfl⟩

/-- C5 amended: the two-secret codec of `src/unnamed/part_010` does satisfy
the claim — access and refresh use different algorithms (HS256 versus HS512)
and different secrets, and a token signed as an access credential never
verifies as a refresh credential, at any instant and for any payload and
nonce. -/
theorem c5_two_secret_codec_separates :
    JwtTwoSecret.accessTokenConfig.alg ≠ JwtTwoSecret.refreshTokenConfig.alg ∧
    JwtTwoSecret.ACCESS_TOKEN_SECRET ≠ JwtTwoSecret.REFRESH_TOKEN_SECRET ∧
    ∀ (p : UserPayload) (hashFn : String → String) (randomData : String) (t0 t1 : Nat),
      JwtTwoSecret.verify .REFRESH_TOKEN
          (JwtTwoSecret.sign .ACCESS_TOKEN p hashFn randomData t0) t1
        = .error .invalidSignature := by
  refine ⟨by decide, by decide, ?_⟩
  intro p hashFn randomData t0 t1
  simp [JwtTwoSecret.verify, JwtTwoSecret.sign, jwtVerify, JwtTwoSecret.configOf,
    JwtTwoSecret.secretOf, JwtTwoSecret.ACCESS_TOKEN_SECRET, JwtTwoSecret.REFRESH_TOKEN_SECRET]

/-- A user row of the relational store (`prisma.user`), as consumed by the
`login` handler: the stored `password` is the scrypt hash hex of the real
password. -/
structure UserRec where
  id : String
  email : String
  name : String
  password : String
  role : String
deriving DecidableEq, Repr

/-- The parsed login request body (`userInputSchema.omit import-free`:
`email` and `password`). -/
structure LoginBody where
  email : String
  password : String
deriving DecidableEq, Repr

/-- External collaborators of the `login` handler, modelled as parameters:
the relational lookup `prisma.user.findFirst` by email, the opaque one-way
function `scrypt(password, PASSWORD_SECRET, 32).toString("hex")`, and the
two token strings produced by `jwtPromisified.sign` for the refresh and the
access credential. -/
structure LoginDeps where
  findUserByEmail : String → Option UserRec
  scryptHex : String → String
  refreshToken : String
  accessToken : String

/-- Result of a `login` call: the HTTP status and message of the response,
and the cache state after the handler settles. -/
structure LoginResult where
  status : Nat
  message : String
  cache : Cache
deriving Repr

/-- Serialized `userSafeNoIDSchema` projection of a user, stored under
`` `user:${user.id}` `` (the exact JSON text is irrelevant to the claims;
an injective field concatenation stands in for it). -/
def userSafeNoIdVal (u : UserRec) : CacheVal :=
  .str (u.email ++ "|" ++ u.name ++ "|" ++ u.role)

namespace AuthHandlers

/-- Embedding of the `login` handler of `src/src/handlers/AuthHandlers.ts`
(lines 364-456; the variant at lines 90-176 agrees on every step modelled
here): look the user up by email (404 on absence), cache the safe user data
under `` `user:${user.id}` `` with `cacheDuration.short`, compare the scrypt
hash of the presented password (400 on mismatch), cache the safe user data
again, mint a refresh token and store it with `cacheDuration.super`, mint an
access token and store it with `cacheDuration.super`, and respond 200.
The handler performs no session-count check of any kind before or after
minting.  Request-body shape validation (`zod`) happens before the modelled
steps and is out of scope, so the body arrives already structured. -/
def login (d : LoginDeps) (body : LoginBody) (c : Cache) : LoginResult :=
  match d.findUserByEmail body.email with
  | none => ⟨404, "email or password is wrong", c⟩
  | some user =>
    let c1 := cacheSet c ("user:" ++ user.id) (userSafeNoIdVal user) cacheDuration.short
    if d.scryptHex body.password ≠ user.password then
      ⟨400, "email or password is wrong", c1⟩
    else
      let c2 := cacheSet c1 ("user:" ++ user.id) (userSafeNoIdVal user) cacheDuration.short
      let c3 := cacheSet c2 d.refreshToken (.str user.id) cacheDuration.super
      let c4 := cacheSet c3 d.accessToken (.str user.id) cacheDuration.super
      ⟨200, "logged in", c4⟩

end AuthHandlers

/-- Concrete user for the login scenarios. -/
def loginUser1 : UserRec := ⟨"u1", "u1@mail.com", "User One", "hash1", "USER"⟩

/-- Concrete login collaborators: the database holds exactly `loginUser1`,
the presented password hashes to the stored hash, and fresh token strings
`"rt.new"` and `"at.new"` are minted. -/
def loginDeps1 : LoginDeps :=
  { findUserByEmail := fun e => if e = "u1@mail.com" then some loginUser1 else none
    scryptHex := fun _ => "hash1"
    refreshToken := "rt.new"
    accessToken := "at.new" }

/-- A cache state in which subject `u1` already has three live sessions:
the session registry group `"session:u1"` lists three refresh tokens and
each token`s own entry is present. -/
def sessions3 : Cache :=
  [("session:u1:queries", ⟨.arr ["rt1", "rt2", "rt3"], cacheDuration.super⟩),
   ("rt1", ⟨.str "u1", cacheDuration.super⟩),
   ("rt2", ⟨.str "u1", cacheDuration.super⟩),
   ("rt3", ⟨.str "u1", cacheDuration.super⟩)]

/-- C1 counterexample: with three live sessions already registered for the
subject, a further `login` does not fail with 403/TooManySessions — it
responds 200, mints and stores new credentials, and changes the cache.
No session cap exists anywhere in the handler. -/
theorem c1_login_no_cap_cex :
    (getCachedQueryKeys sessions3 "session:u1").length = 3 ∧
    (AuthHandlers.login loginDeps1 ⟨"u1@mail.com", "Pw"⟩ sessions3).status = 200 ∧
    (AuthHandlers.login loginDeps1 ⟨"u1@mail.com", "Pw"⟩ sessions3).status ≠ 403 ∧
    cacheGet (AuthHandlers.login loginDeps1 ⟨"u1@mail.com", "Pw"⟩ sessions3).cache "at.new"
      = some ⟨.str "u1", cacheDuration.super⟩ ∧
    cacheGet (AuthHandlers.login loginDeps1 ⟨"u1@mail.com", "Pw"⟩ sessions3).cache "rt.new"
      = some ⟨.str "u1", cacheDuration.super⟩ := by
  refine ⟨rfl, rfl, by decide, rfl, rfl⟩

/-- C1 amended: `login` enforces no concurrent-session cap.  Whenever the
email resolves to a user and the password hash matches, it responds 200 and
writes both the refresh-token and the access-token cache entries — for every
prior cache state, including states in which the subject already holds
arbitrarily many live sessions — and it never responds 403. -/
theorem c1_login_no_cap (d : LoginDeps) (body : LoginBody) (c : Cache) (user : UserRec)
    (hfind : d.findUserByEmail body.email = some user)
    (hpw : d.scryptHex body.password = user.password)
    (hne : d.refreshToken ≠ d.accessToken) :
    (AuthHandlers.login d body c).status = 200 ∧
    cacheGet (AuthHandlers.login d body c).cache d.accessToken
      = some ⟨.str user.id, cacheDuration.super⟩ ∧
    cacheGet (AuthHandlers.login d body c).cache d.refreshToken
      = some ⟨.str user.id, cacheDuration.super⟩ ∧
    ∀ (d2 : LoginDeps) (body2 : LoginBody) (c2 : Cache),
      (AuthHandlers.login d2 body2 c2).status ≠ 403 := by
  have hlogin : AuthHandlers.login d body c
      = ⟨200, "logged in",
          cacheSet
            (cacheSet
              (cacheSet
                (cacheSet c ("user:" ++ user.id) (userSafeNoIdVal user) cacheDuration.short)
                ("user:" ++ user.id) (userSafeNoIdVal user) cacheDuration.short)
              d.refreshToken (.str user.id) cacheDuration.super)
            d.accessToken (.str user.id) cacheDuration.super⟩ := by
    simp [AuthHandlers.login, hfind, hpw]
  refine ⟨by rw [hlogin], ?_, ?_, ?_⟩
  · rw [hlogin]
    exact cacheGet_cacheSet_self _ _ _ _
  · rw [hlogin]
    simp only [LoginResult.cache]
    rw [cacheGet_cacheSet_ne _ _ _ _ _ (Ne.symm hne)]
    exact cacheGet_cacheSet_self _ _ _ _
  · intro d2 body2 c2
    unfold AuthHandlers.login
    cases d2.findUserByEmail body2.email with
    | none => simp
    | some u =>
      by_cases h : d2.scryptHex body2.password = u.password <;> simp [h]

/-- Witness for `c1_login_no_cap` at a concrete input: the three-session
cache `sessions3` with the concrete collaborators `loginDeps1`. -/
theorem c1_login_no_cap_witness :
    loginDeps1.findUserByEmail "u1@mail.com" = some loginUser1 ∧
    loginDeps1.scryptHex "Pw" = loginUser1.password ∧
    loginDeps1.refreshToken ≠ loginDeps1.accessToken ∧
    ((AuthHandlers.login loginDeps1 ⟨"u1@mail.com", "Pw"⟩ sessions3).status = 200 ∧
      cacheGet (AuthHandlers.login loginDeps1 ⟨"u1@mail.com", "Pw"⟩ sessions3).cache
          loginDeps1.accessToken
        = some ⟨.str loginUser1.id, cacheDuration.super⟩ ∧
      cacheGet (AuthHandlers.login loginDeps1 ⟨"u1@mail.com", "Pw"⟩ sessions3).cache
          loginDeps1.refreshToken
        = some ⟨.str loginUser1.id, cacheDuration.super⟩ ∧
      ∀ (d2 : LoginDeps) (body2 : LoginBody) (c2 : Cache),
        (AuthHandlers.login d2 body2 c2).status ≠ 403) :=
  ⟨rfl, rfl, by decide,
    c1_login_no_cap loginDeps1 ⟨"u1@mail.com", "Pw"⟩ sessions3 loginUser1 rfl rfl (by decide)⟩

/-- C7: evaluation of `login` at a successful call shows the bug — the
handler stores the access-token cache entry with `cacheDuration.super`
(604800 s, the 7-day refresh lifetime), not with the short 30-minute access
lifetime `cacheDuration.medium` the claim (and the sibling `register` and
`refresh` handlers, which use `cacheDuration.medium`) prescribe; the
refresh-token entry gets the same `super` TTL, so the two TTLs are not
distinct. -/
theorem c7_login_access_ttl_bug :
    cacheGet (AuthHandlers.login loginDeps1 ⟨"u1@mail.com", "Pw"⟩ []).cache "at.new"
      = some ⟨.str "u1", cacheDuration.super⟩ ∧
    cacheGet (AuthHandlers.login loginDeps1 ⟨"u1@mail.com", "Pw"⟩ []).cache "rt.new"
      = some ⟨.str "u1", cacheDuration.super⟩ ∧
    cacheDuration.super = 604800 ∧
    cacheDuration.medium = 1800 ∧
    cacheDuration.super ≠ cacheDuration.medium := by
  refine ⟨rfl, rfl, rfl, rfl, by decide⟩

/-- Failures of the promisified memcached methods
(`MemcachedMethodError`): an internal cache error, or a cache miss. -/
inductive MemErr where
  | internalError
  | cacheMiss
deriving DecidableEq, Repr

/-- Outcome of an express middleware in this model: the success
continuation `next()` was called, an error response was sent with a status
and message, or the error was passed to the global error handler
(`next(error)`). -/
inductive MwOutcome where
  | nextOk
  | respond (status : Nat) (message : String)
  | nextError
deriving DecidableEq, Repr

namespace AuthErrorMessages

/-- `AuthErrorMessages.REFRESH_TOKEN_NOT_VALID_MESSAGE`. -/
def REFRESH_TOKEN_NOT_VALID_MESSAGE : String := "valid refresh token not supplied"

/-- `AuthErrorMessages.REFRESH_TOKEN_EXPIRED`. -/
def REFRESH_TOKEN_EXPIRED : String := "refresh token expired"

/-- `AuthErrorMessages.ACCESS_TOKEN_NOT_VALID_MESSAGE`. -/
def ACCESS_TOKEN_NOT_VALID_MESSAGE : String := "valid access token not supplied"

/-- `AuthErrorMessages.ANONYM_CSRF_TOKEN_NOT_VALID_MESSAGE`. -/
def ANONYM_CSRF_TOKEN_NOT_VALID_MESSAGE : String := "valid anonymous csrf token not supplied"

/-- `AuthErrorMessages.ANONYM_CSRF_TOKEN_EXPIRED`. -/
def ANONYM_CSRF_TOKEN_EXPIRED : String := "valid anonymous csrf token expired or not supplied"

end AuthErrorMessages

/-- Embedding of `checkRefreshToken` from
`src/src/middlewares/TokenMiddlewares.ts` (lines 66-112): a missing
`x-refresh-token` header throws the not-valid error; `jwtPromisified.verify`
failing with `TokenExpiredError` responds 401 expired, failing with
`JsonWebTokenError` responds 401 not-valid; when verification passes, the
token is looked up in the session cache — a cache miss is caught as a
`MemcachedMethodError` with message `"cache miss"` and responds 401 with
`REFRESH_TOKEN_EXPIRED`, an internal cache error goes to the global error
handler, and a hit calls `next()`.  The header carries the token in its
symbolic form, and `cacheResult` is the outcome of `memcached.get` on the
token string. -/
def checkRefreshToken (header : Option (Token SignedPayload))
    (cacheResult : Except MemErr String) (now : Nat) : MwOutcome :=
  match header with
  | none => .respond 401 AuthErrorMessages.REFRESH_TOKEN_NOT_VALID_MESSAGE
  | some tok =>
    match JwtTwoSecret.verify .REFRESH_TOKEN tok now with
    | .error .expired => .respond 401 AuthErrorMessages.REFRESH_TOKEN_EXPIRED
    | .error .invalidSignature => .respond 401 AuthErrorMessages.REFRESH_TOKEN_NOT_VALID_MESSAGE
    | .ok _ =>
      match cacheResult with
      | .error .cacheMiss => .respond 401 AuthErrorMessages.REFRESH_TOKEN_EXPIRED
      | .error .internalError => .nextError
      | .ok _ => .nextOk

/-- C3: a refresh token that passes cryptographic verification but whose
cache entry is absent (revoked) is denied by the refresh guard: the success
continuation is not called and the response is 401 with the stable message
`"refresh token expired"`. -/
theorem c3_refresh_guard_revoked (tok : Token SignedPayload) (now : Nat) (p : SignedPayload)
    (hv : JwtTwoSecret.verify .REFRESH_TOKEN tok now = .ok p) :
    checkRefreshToken (some tok) (.error .cacheMiss) now
      = .respond 401 AuthErrorMessages.REFRESH_TOKEN_EXPIRED ∧
    checkRefreshToken (some tok) (.error .cacheMiss) now ≠ .nextOk := by
  simp [checkRefreshToken, hv, AuthErrorMessages.REFRESH_TOKEN_EXPIRED]

/-- Witness for `c3_refresh_guard_revoked` at a concrete input: a refresh
token freshly signed at instant 0, checked at instant 1, with the cache
reporting a miss. -/
theorem c3_refresh_guard_revoked_witness :
    JwtTwoSecret.verify .REFRESH_TOKEN
        (JwtTwoSecret.sign .REFRESH_TOKEN ⟨"u1", "e", "nm", "USER"⟩ (fun _ => "h") "r" 0) 1
      = .ok ⟨⟨"u1", "e", "nm", "USER"⟩, "h"⟩ ∧
    (checkRefreshToken
        (some (JwtTwoSecret.sign .REFRESH_TOKEN ⟨"u1", "e", "nm", "USER"⟩ (fun _ => "h") "r" 0))
        (.error .cacheMiss) 1
      = .respond 401 AuthErrorMessages.REFRESH_TOKEN_EXPIRED ∧
    checkRefreshToken
        (some (JwtTwoSecret.sign .REFRESH_TOKEN ⟨"u1", "e", "nm", "USER"⟩ (fun _ => "h") "r" 0))
        (.error .cacheMiss) 1 ≠ .nextOk) :=
  ⟨rfl,
    c3_refresh_guard_revoked
      (JwtTwoSecret.sign .REFRESH_TOKEN ⟨"u1", "e", "nm", "USER"⟩ (fun _ => "h") "r" 0) 1
      ⟨⟨"u1", "e", "nm", "USER"⟩, "h"⟩ rfl⟩

/-- Embedding of `checkAnonymousCsrfToken` from the CSRF middleware section
of `src/src/handlers/AuthHandlers.ts` (lines 550-619): a missing signed
cookie or missing `x-csrf-token` header throws the anonymous-not-valid
error (caught as 403); `memcached.get(csrfToken)` rejecting with a cache
miss responds 403 with the expired message and an internal error goes to
the global error handler; on a hit, the expected cookie value is
`` sha256(`${csrfKey}${csrfToken}`) `` in hex and any mismatch responds 403
not-valid; on a match the key TTL is touched (failures swallowed) and
`next()` is called.  `hashFn` models the SHA-256 hex digest. -/
def checkAnonymousCsrfToken (hashFn : String → String) (cookieHash : Option String)
    (headerToken : Option String) (cacheResult : Except MemErr String) : MwOutcome :=
  match cookieHash with
  | none => .respond 403 AuthErrorMessages.ANONYM_CSRF_TOKEN_NOT_VALID_MESSAGE
  | some hct =>
    match headerToken with
    | none => .respond 403 AuthErrorMessages.ANONYM_CSRF_TOKEN_NOT_VALID_MESSAGE
    | some csrfToken =>
      match cacheResult with
      | .error .cacheMiss => .respond 403 AuthErrorMessages.ANONYM_CSRF_TOKEN_EXPIRED
      | .error .internalError => .nextError
      | .ok csrfKey =>
        if hashFn (csrfKey ++ csrfToken) ≠ hct then
          .respond 403 AuthErrorMessages.ANONYM_CSRF_TOKEN_NOT_VALID_MESSAGE
        else .nextOk

/-- C8: for an anonymous CSRF token `T` whose cached value is `K`,
`checkAnonymousCsrfToken` with header `T` and signed cookie equal to
`sha256(K || T)` calls the next handler, while with any other cookie value
it responds 403 with the CSRF-invalid message and does not call the next
handler. -/
theorem c8_anonymous_csrf_double_submit (hashFn : String → String) (K T Hbad : String)
    (hbad : Hbad ≠ hashFn (K ++ T)) :
    checkAnonymousCsrfToken hashFn (some (hashFn (K ++ T))) (some T) (.ok K) = .nextOk ∧
    checkAnonymousCsrfToken hashFn (some Hbad) (some T) (.ok K)
      = .respond 403 AuthErrorMessages.ANONYM_CSRF_TOKEN_NOT_VALID_MESSAGE ∧
    checkAnonymousCsrfToken hashFn (some Hbad) (some T) (.ok K) ≠ .nextOk := by
  have h2 : hashFn (K ++ T) ≠ Hbad := Ne.symm hbad
  refine ⟨?_, ?_, ?_⟩ <;> simp [checkAnonymousCsrfToken, h2]

/-- Witness for `c8_anonymous_csrf_double_submit` at a concrete input: the
hash modelled by appending `"#"`, cache value `"K"`, token `"T"`, wrong
cookie `"X"`. -/
theorem c8_anonymous_csrf_double_submit_witness :
    "X" ≠ (fun s => s ++ "#") ("K" ++ "T") ∧
    (checkAnonymousCsrfToken (fun s => s ++ "#")
        (some ((fun s => s ++ "#") ("K" ++ "T"))) (some "T") (.ok "K") = .nextOk ∧
    checkAnonymousCsrfToken (fun s => s ++ "#") (some "X") (some "T") (.ok "K")
      = .respond 403 AuthErrorMessages.ANONYM_CSRF_TOKEN_NOT_VALID_MESSAGE ∧
    checkAnonymousCsrfToken (fun s => s ++ "#") (some "X") (some "T") (.ok "K") ≠ .nextOk) :=
  ⟨by decide, c8_anonymous_csrf_double_submit (fun s => s ++ "#") "K" "T" "X" (by decide)⟩

/-- Shape of the `authorization` header as `checkAdmin` sees it after
`split(" ")`: either the split does not yield exactly two parts, or it
yields a scheme string and a token (carried symbolically).  `checkAdmin`
never inspects the scheme part. -/
inductive AuthHeaderParts where
  | notTwoParts
  | twoParts (scheme : String) (tok : Token SignedPayload)

/-- Embedding of `checkAdmin` from
`src/src/middlewares/AuthorityMiddlewares.ts` (lines 7-44): a missing
header or a header whose space-split is not exactly two parts responds 401
not-valid; otherwise the token is only `jwtPromisified.decode`d — no
signature verification, no expiry check, no cache lookup — and the guard
responds 403 unless the decoded `role` claim equals `"ADMIN"`, in which
case it calls `next()`.  The parameters `_now` and `_tokenCachePresent`
stand for the ambient clock and the session-cache state of the token; the
definition ignores them because the source consults neither. -/
def checkAdmin (header : Option AuthHeaderParts) (_now : Nat)
    (_tokenCachePresent : Bool) : MwOutcome :=
  match header with
  | none => .respond 401 AuthErrorMessages.ACCESS_TOKEN_NOT_VALID_MESSAGE
  | some .notTwoParts => .respond 401 AuthErrorMessages.ACCESS_TOKEN_NOT_VALID_MESSAGE
  | some (.twoParts _ tok) =>
    if tok.payload.user.role ≠ "ADMIN" then
      .respond 403 "admin role needed to perform this task"
    else .nextOk

/-- C9: for every two-part authorization header, `checkAdmin` decides
solely on the unverified decoded role claim — it calls the next handler
exactly when the decoded role is `"ADMIN"`, for every clock instant and
every cache state, and in particular an access token that is long expired
and absent from the cache still passes when its decoded role is
`"ADMIN"`. -/
theorem c9_admin_guard_decodes_only (scheme : String) (tok : Token SignedPayload)
    (now : Nat) (cachePresent : Bool) :
    checkAdmin (some (.twoParts scheme tok)) now cachePresent
      = (if tok.payload.user.role = "ADMIN" then .nextOk
         else .respond 403 "admin role needed to perform this task") ∧
    (checkAdmin (some (.twoParts scheme tok)) now cachePresent = .nextOk
      ↔ tok.payload.user.role = "ADMIN") ∧
    checkAdmin
        (some (.twoParts "Bearer"
          (JwtTwoSecret.sign .ACCESS_TOKEN ⟨"a1", "e", "nm", "ADMIN"⟩ (fun _ => "h") "r" 0)))
        999999999 false
      = .nextOk ∧
    (JwtTwoSecret.sign .ACCESS_TOKEN ⟨"a1", "e", "nm", "ADMIN"⟩
        (fun _ => "h") "r" 0).exp < 999999999 := by
  refine ⟨?_, ?_, rfl, by decide⟩ <;>
    by_cases h : tok.payload.user.role = "ADMIN" <;> simp [checkAdmin, h]

/-- Response of the `getProducts` read-through cache path: a 400 for an
invalid query shape, or a 200 served either from the cache or computed from
the database. -/
inductive ProductsResponse where
  | badRequest
  | okFromCache (payload : String)
  | okFromDb (payload : String)
deriving DecidableEq, Repr

/-- HTTP status of a `ProductsResponse`. -/
def statusOf : ProductsResponse → Nat
  | .badRequest => 400
  | .okFromCache _ => 200
  | .okFromDb _ => 200

/-- Embedding of the `getProducts` handler of
`src/src/handlers/ProductHandlers.ts` (lines 36-115), centred on the cached
read path (lines 53-65): when the query parses, the handler tries
`memcached.get(cacheKey)` followed by the cached-shape parse inside a `try`
whose `catch` does nothing, so any failure — cache miss, internal cache
error, or a malformed cached payload — falls through to the database
computation, which responds 200.  `parseCached` models
`productsCachedQuerySchema.parse(JSON.parse(...))` and `dbPayload` the
response body built from the prisma queries; the db path`s re-population of
the cache does not affect the response and is not modelled. -/
def getProducts (queryOk : Bool) (cacheResult : Except MemErr String)
    (parseCached : String → Option String) (dbPayload : String) : ProductsResponse :=
  if queryOk = false then .badRequest
  else
    match cacheResult with
    | .ok s =>
      match parseCached s with
      | some payload => .okFromCache payload
      | none => .okFromDb dbPayload
    | .error _ => .okFromDb dbPayload

/-- C10: on the read-through query-cache path, a cache failure of any kind
is treated as a cache miss — the handler computes the result from the
database and responds 200, never surfacing the cache error, and an internal
cache error produces exactly the same response as a plain miss. -/
theorem c10_read_cache_fails_open (e : MemErr) (parseCached : String → Option String)
    (dbPayload : String) :
    getProducts true (.error e) parseCached dbPayload = .okFromDb dbPayload ∧
    statusOf (getProducts true (.error e) parseCached dbPayload) = 200 ∧
    getProducts true (.error .internalError) parseCached dbPayload
      = getProducts true (.error .cacheMiss) parseCached dbPayload := by
  cases e <;> simp [getProducts, statusOf]

end Siperak
